import Mathlib

/-!
Verification of the Foxbox synchronization core
(`src/app/js/lib/foxbox/foxbox.js`).

The JavaScript module is shallowly embedded: JS objects become association
lists of string keys and `JsVal` values, promise chains become pure functions
returning the observable effects (dispatched events, database writes, resolved
values), and the polling scheduler becomes an explicit transition system over
the fields the source mutates (`isPollingEnabled`, `nextPollTimeout`) together
with the environment facts they track (armed timers, outstanding cycles).
-/

namespace Foxbox

/-- A JavaScript value as it occurs in this module: `undefined`, a primitive,
or an object given by its own enumerable properties in insertion order. -/
inductive JsVal where
  | undefV
  | boolV (b : Bool)
  | numV (n : Int)
  | strV (s : String)
  | objV (fields : List (String × JsVal))

/-- A JavaScript object: its own enumerable properties in insertion order.
JS object keys are unique, so where it matters lemmas carry a `Nodup`
hypothesis on the key list. -/
abbrev Obj := List (String × JsVal)

/-- Property lookup, `o[key]` when the property is present. -/
def getProp (o : Obj) (key : String) : Option JsVal :=
  (o.find? fun kv => kv.1 == key).map fun kv => kv.2

/-- The JS `in` operator: a key is an own property iff lookup succeeds. -/
def hasProp (o : Obj) (key : String) : Bool :=
  (getProp o key).isSome

/-- Property access `o[key]`, yielding `undefined` when the key is absent. -/
def getField (o : Obj) (key : String) : JsVal :=
  (getProp o key).getD .undefV

/-- The key list of an object, in insertion order. -/
def keys (o : Obj) : List String :=
  o.map fun kv => kv.1

/-- Property assignment `o[key] = v`: an existing property is updated in
place, a new one is appended at the end, exactly as in JS. -/
def setProp : Obj → String → JsVal → Obj
  | [], key, v => [(key, v)]
  | kv :: rest, key, v =>
      if kv.1 == key then (key, v) :: rest else kv :: setProp rest key v

/-- The merge `Object.assign(target, source)`: every own property of `source` is
assigned onto `target`, left to right. -/
def objAssign (target source : Obj) : Obj :=
  source.foldl (fun acc kv => setProp acc kv.1 kv.2) target

/-- JavaScript strict equality (`===`) for the values compared in this
module. Primitives compare by value. Two object references obtained from
different producers are never identical, and the only object-against-object
comparisons in the source pit a network-fetched value against a
database-loaded one, so the object case is `false`. -/
def jsStrictEq : JsVal → JsVal → Bool
  | .undefV, .undefV => true
  | .boolV a, .boolV b => a == b
  | .numV a, .numV b => a == b
  | .strV a, .strV b => a == b
  | _, _ => false

/-- The comparison `isSimilar` from foxbox.js lines 36-44: true iff every property of
`objectA` also exists in `objectB` with a strictly equal value. Extraneous
properties of `objectB` are ignored and property order is irrelevant.
The source iterates `for prop in objectA`; since JS object keys are unique,
iterating the entries is the same loop. -/
def isSimilar (objectA objectB : Obj) : Bool :=
  objectA.all fun kv =>
    match getProp objectB kv.1 with
    | some v => jsStrictEq kv.2 v
    | none => false

/-- The comparison `isSimilar` as invoked from `refreshServicesByPolling` (line 297), where either
state may be any JS value (in particular `undefined` when a service record
has no `state` property). A `for`-`in` loop over a non-object value performs
no iterations, so a non-object first argument yields `true`; a nonempty
object against a non-object would raise a TypeError at `prop in objectB`,
a case no call in this module reaches, rendered here as `false`. -/
def isSimilarAt : JsVal → JsVal → Bool
  | .objV fa, .objV fb => isSimilar fa fb
  | .objV fa, _ => fa.isEmpty
  | _, _ => true

/-! State reconciliation (`refreshServicesByPolling`, lines 266-322) -/

/-- The two event kinds dispatched through the emitter base class:
`service-state-change` carries one service record, `service-change` carries
the full fetched list. -/
inductive Event where
  | serviceStateChange (service : Obj)
  | serviceChange (services : List Obj)

/-- True exactly on `service-change` events. -/
def isServiceChangeEvt : Event → Bool
  | .serviceChange _ => true
  | _ => false

/-- The lookup `storedServices.find(s => s.id === fetchedService.id)` (lines 290-292). -/
def findById (storedServices : List Obj) (fetchedService : Obj) : Option Obj :=
  storedServices.find? fun s => jsStrictEq (getField s "id") (getField fetchedService "id")

/-- One iteration of the `reduce` callback in `refreshServicesByPolling`
(lines 288-312). The accumulator is the `hasNewServices` flag extended with
the observable effects of the iterations so far: dispatched events and
database writes, each in order. In the existing-service branch the source
computes `hasNewServices || !isExistingService`, which is `hasNewServices`;
in the new-service branch it is `true`. `Object.assign(storedService,
fetchedService)` is rendered functionally by `objAssign`; the in-place
mutation of the stored record is unobservable in a cycle whose fetched ids
are distinct. -/
def reconcileStep (storedServices : List Obj) (acc : Bool × List Event × List Obj)
    (fetchedService : Obj) : Bool × List Event × List Obj :=
  match findById storedServices fetchedService with
  | some storedService =>
      if isSimilarAt (getField fetchedService "state") (getField storedService "state") then
        acc
      else
        let merged := objAssign storedService fetchedService
        (acc.1, acc.2.1 ++ [Event.serviceStateChange merged], acc.2.2 ++ [merged])
  | none =>
      (true, acc.2.1 ++ [Event.serviceStateChange fetchedService],
       acc.2.2 ++ [fetchedService])

/-- The full `reduce` over the fetched list, starting from
`false /* hasNewServices */` and no effects. -/
def runReconcile (storedServices fetchedServices : List Obj) :
    Bool × List Event × List Obj :=
  fetchedServices.foldl (reconcileStep storedServices) (false, [], [])

/-- One cycle of `refreshServicesByPolling`, parameterised by the login flag and by the
two lists the source obtains from `Promise.all([this.getServices(),
this[p.fetchServices]()])`: the database contents and the freshly fetched
services. Returns the dispatched events in order, the database writes in
order, and the value the promise resolves with (`none` models resolving
with `undefined` on the logged-out early return). -/
def refreshServicesByPolling (loggedIn : Bool) (storedServices fetchedServices : List Obj) :
    List Event × List Obj × Option (List Obj) :=
  if !loggedIn then ([], [], none)
  else
    let r := runReconcile storedServices fetchedServices
    let events :=
      if r.1 || fetchedServices.length != storedServices.length then
        r.2.1 ++ [Event.serviceChange fetchedServices]
      else r.2.1
    (events, r.2.2, some fetchedServices)

/-! The fetch-services projection (`[p.fetchServices]`, lines 423-437) -/

/-- The object literal built for each raw service of the
services-list response: exactly the keys `id`, `type`
(copied from the `adapter` field of the response), `getters`, `setters`
and `properties`. -/
def projectService (service : Obj) : Obj :=
  [("id", getField service "id"),
   ("type", getField service "adapter"),
   ("getters", getField service "getters"),
   ("setters", getField service "setters"),
   ("properties", getField service "properties")]

/-- The method `[p.fetchServices]`: the projection applied to every service of the
response. -/
def fetchServices (services : List Obj) : List Obj :=
  services.map projectService

/-! Polling scheduler (`togglePolling` / `schedulePoll`, lines 222-257).

The source keeps two fields, `isPollingEnabled` and `nextPollTimeout` (the
timer handle, or `null`). The model carries them verbatim, with timer
handles drawn from a fresh-id counter, together with the environment facts
the claims are about: which armed timers have not yet fired or been
cancelled, and which reconciliation cycles have started but not yet
settled. The timer callback (lines 246-255) runs the cycle, and on
settlement of either outcome (`.catch` logs and swallows the failure, the
following `.then` always runs) clears `nextPollTimeout` and calls
`schedulePoll` again. -/

/-- The scheduler state: the two source fields plus the event-loop facts
they track. -/
structure SchedState where
  isPollingEnabled : Bool
  nextPollTimeout : Option Nat
  pendingTimers : List Nat
  inFlightCycles : List Nat
  nextTimerId : Nat
deriving Repr, DecidableEq

/-- The method `schedulePoll` (lines 239-257): returns early when polling is disabled
or a timeout handle is already stored, otherwise arms a fresh timer and
stores its handle. -/
def schedulePoll (s : SchedState) : SchedState :=
  if !s.isPollingEnabled || s.nextPollTimeout.isSome then s
  else
    { s with nextPollTimeout := some s.nextTimerId,
             pendingTimers := s.pendingTimers ++ [s.nextTimerId],
             nextTimerId := s.nextTimerId + 1 }

/-- The call `clearTimeout(this[p.nextPollTimeout])`: cancels the referenced timer
when it is still armed, and does nothing when the handle is `null` or the
timer has already fired. -/
def clearPollTimeout (s : SchedState) : SchedState :=
  match s.nextPollTimeout with
  | some t => { s with pendingTimers := s.pendingTimers.erase t }
  | none => s

/-- The method `togglePolling` (lines 222-232): stores the flag, then either calls
`schedulePoll` or cancels the referenced timer and nulls the handle. -/
def togglePolling (pollingEnabled : Bool) (s : SchedState) : SchedState :=
  let s := { s with isPollingEnabled := pollingEnabled }
  if pollingEnabled then schedulePoll s
  else { clearPollTimeout s with nextPollTimeout := none }

/-- The externally visible scheduler events: a `togglePolling` call, an
armed timer firing (which starts one reconciliation cycle), and a cycle
settling with success or failure. -/
inductive SchedEvent where
  | toggle (pollingEnabled : Bool)
  | timerFire (t : Nat)
  | cycleSettle (t : Nat) (success : Bool)

/-- One step of the scheduler. A timer that is not armed cannot fire and a
cycle that is not outstanding cannot settle, so those events are identity.
Firing does not touch `nextPollTimeout` (the source clears it only in the
settlement continuation). Settlement is outcome-independent: the `.catch`
handler only logs, so the `.then` continuation (null the handle, call
`schedulePoll`) runs for success and failure alike, and reads
`isPollingEnabled` at settle time. -/
def schedStep (s : SchedState) : SchedEvent → SchedState
  | .toggle e => togglePolling e s
  | .timerFire t =>
      if t ∈ s.pendingTimers then
        { s with pendingTimers := s.pendingTimers.erase t,
                 inFlightCycles := s.inFlightCycles ++ [t] }
      else s
  | .cycleSettle t _success =>
      if t ∈ s.inFlightCycles then
        schedulePoll
          { s with inFlightCycles := s.inFlightCycles.erase t,
                   nextPollTimeout := none }
      else s

/-- The constructor state (lines 55-56): polling disabled, no timer. -/
def schedInit : SchedState :=
  { isPollingEnabled := false, nextPollTimeout := none,
    pendingTimers := [], inFlightCycles := [], nextTimerId := 0 }

/-- Run a sequence of scheduler events from the constructor state. -/
def schedRun (events : List SchedEvent) : SchedState :=
  events.foldl schedStep schedInit

/-! Session manager (`_initUserSession`, lines 166-191) -/

/-- JS `String.prototype.split` with a one-character separator; on the
empty string it yields one empty part, as in JS. -/
def jsSplit (sep : Char) (s : String) : List String :=
  (s.toList.splitOn sep).map List.asString

/-- JS replace of every space by a plus sign, as in the source regex replace. -/
def jsReplaceSpacePlus (s : String) : String :=
  (s.toList.map fun c => if c = ' ' then '+' else c).asString

/-- The outcome of `_initUserSession`: either the promise resolves and
initialization continues, or the location is rewritten to `newSearch` and
the chain is aborted (the source throws to do so). -/
inductive SessionOutcome where
  | continueInit
  | redirect (newSearch : String)
deriving Repr, DecidableEq

/-- The method `_initUserSession`, parameterised by the login flag and by
`location.search`. Returns the outcome together with the session value
written to the settings, if any. The loop matches the first query part
whose first fourteen characters (`substring(0, 14)`, clamped on shorter
parts) equal the thirteen-character literal `session_token`; on a match it
stores that same substring (spaces replaced by plus signs), splices the
part out, and rewrites the location. -/
def initUserSession (isLoggedIn : Bool) (search : String) :
    SessionOutcome × Option String :=
  if isLoggedIn then (.continueInit, none)
  else
    let queryStringParts := jsSplit '&' (search.drop 1)
    match queryStringParts.findIdx?
        (fun part => part.take ("session_token=".length) == "session_token") with
    | none => (.continueInit, none)
    | some i =>
        let part := (queryStringParts.get? i).getD ""
        let token := jsReplaceSpacePlus (part.take ("session_token=".length))
        (.redirect (String.intercalate "&" (queryStringParts.eraseIdx i)), some token)

/-! Box registry (`selectBox`, lines 141-158, and `_initDiscovery`,
lines 116-134) -/

/-- A discovered box as delivered by the zeroconf provider: the fields the
source reads. The display name lives inside the advertisement txt record
(`box.txtRecord.name`). -/
structure TxtRecord where
  name : String
deriving Repr, DecidableEq

/-- A zeroconf service advertisement for a box. -/
structure Box where
  addresses : List String
  port : Nat
  txtRecord : TxtRecord
deriving Repr, DecidableEq

/-- The settings fields `selectBox` writes. -/
structure FoxSettings where
  configured : Bool
  url : Option String
  ipaddrs : Option (List String)
deriving Repr, DecidableEq

/-- The transport destination configured through
`cordovaHTTP.setProxyHost` / `setProxyPort`. -/
structure ProxyDest where
  host : Option String
  port : Option Nat
deriving Repr, DecidableEq

/-- The non-fatal abnormal outcomes of a `selectBox` call. -/
inductive SelectBoxResult where
  | indexOutOfRange
  | callbackTypeError
deriving Repr, DecidableEq

/-- The method `selectBox` together with the completion of both asynchronous proxy
callbacks. Out of range (`index >= this[p.boxes].length`): the configured
flag is set false, the condition is logged, and no destination is touched.
In range: the settings url becomes `https://` + txt-record name + `:` +
port, the addresses are persisted, and the destination is pointed at
`box.addresses[0]` and `box.port`. The final `this[p.settings].configured
= true` sits inside nested plain (non-arrow) `function()` callbacks; this
module is strict mode, so `this` is `undefined` there and the assignment
raises a TypeError when the callbacks complete, leaving the configured
flag unchanged. -/
def selectBox (boxes : List Box) (index : Nat) (settings : FoxSettings)
    (proxy : ProxyDest) : FoxSettings × ProxyDest × Option SelectBoxResult :=
  if h : boxes.length ≤ index then
    ({ settings with configured := false }, proxy, some .indexOutOfRange)
  else
    let box := boxes.get ⟨index, Nat.lt_of_not_le h⟩
    ({ settings with
        url := some ("https://" ++ box.txtRecord.name ++ ":" ++ toString box.port),
        ipaddrs := some box.addresses },
     { host := box.addresses.head?, port := some box.port },
     some .callbackTypeError)

/-- The box registry: the discovered-box list and whether that list object
is frozen. The constructor (line 54) initialises it to
`Object.freeze([])`. -/
structure BoxRegistry where
  boxes : List Box
  boxesFrozen : Bool
deriving Repr, DecidableEq

/-- The registry as built by the constructor: an empty frozen array. -/
def initialBoxRegistry : BoxRegistry :=
  { boxes := [], boxesFrozen := true }

/-- The zeroconf watch callback of `_initDiscovery` (lines 124-132):
on an `added` action it pushes the advertised service onto the registry
list and then calls `selectBox()` unconditionally; any other action is
ignored. `Array.prototype.push` on a frozen array raises a TypeError, so
with the frozen registry the push aborts the callback before `selectBox`
is reached. Returns the registry, whether `selectBox` was invoked, and the
raised error if any. -/
def onDiscovered (reg : BoxRegistry) (action : String) (service : Box) :
    BoxRegistry × Bool × Option String :=
  if action == "added" then
    if reg.boxesFrozen then
      (reg, false, some "TypeError: can not add property 0, object is not extensible")
    else
      ({ reg with boxes := reg.boxes ++ [service] }, true, none)
  else
    (reg, false, none)

/-! Operation dispatcher (`[p.getOperationValueType]`, lines 447-463) -/

/-- An operation kind: absent (`undefined`), a well-known string, or an
Extension channel kind object carrying a `typ` field. -/
inductive OperationKind where
  | undefK
  | strK (s : String)
  | extK (typ : String)
deriving Repr, DecidableEq

/-- The method `[p.getOperationValueType]`: a falsy kind (absent, or the empty
string) throws; an object kind returns its `typ` field verbatim; a string
kind goes through the switch, which maps `TakeSnapshot` to `Unit` and
every other string to itself. -/
def getOperationValueType : OperationKind → Except String String
  | .undefK => .error "Operation kind is not defined!"
  | .strK s =>
      if s = "" then .error "Operation kind is not defined!"
      else if s = "TakeSnapshot" then .ok "Unit"
      else .ok s
  | .extK typ => .ok typ

/-! Helper lemmas about objects -/

theorem getProp_cons (a : String) (v : JsVal) (t : Obj) (k : String) :
    getProp ((a, v) :: t) k = if a = k then some v else getProp t k := by
  by_cases h : a = k <;> simp [getProp, List.find?_cons, h]

theorem getProp_nil (k : String) : getProp [] k = none := rfl

theorem getProp_setProp (o : Obj) (key k : String) (v : JsVal) :
    getProp (setProp o key v) k = if key = k then some v else getProp o k := by
  induction o with
  | nil => by_cases h : key = k <;> simp [setProp, getProp_cons, h]
  | cons kv t ih =>
      obtain ⟨a, w⟩ := kv
      by_cases ha : a = key
      · subst ha
        by_cases h : a = k <;> simp [setProp, getProp_cons, h]
      · have hsp : setProp ((a, w) :: t) key v = (a, w) :: setProp t key v := by
          simp [setProp, ha]
        rw [hsp, getProp_cons, ih, getProp_cons]
        by_cases hak : a = k
        · subst hak
          have hka : ¬ key = a := fun hh => ha hh.symm
          simp [hka]
        · simp [hak]

theorem getProp_eq_none_of_not_mem_keys {o : Obj} {k : String} (h : k ∉ keys o) :
    getProp o k = none := by
  induction o with
  | nil => rfl
  | cons kv t ih =>
      obtain ⟨a, w⟩ := kv
      simp only [keys, List.map_cons, List.mem_cons] at h
      push_neg at h
      have h1 : ¬ a = k := fun hh => h.1 hh.symm
      simp [getProp_cons, h1, ih (by simpa [keys] using h.2)]

theorem getProp_objAssign (target source : Obj) (hnd : (keys source).Nodup) (k : String) :
    getProp (objAssign target source) k = (getProp source k).or (getProp target k) := by
  induction source generalizing target with
  | nil => simp [objAssign, getProp_nil, Option.or]
  | cons kv rest ih =>
      obtain ⟨a, v⟩ := kv
      simp only [keys, List.map_cons, List.nodup_cons] at hnd
      have hstep : objAssign target ((a, v) :: rest) = objAssign (setProp target a v) rest := rfl
      rw [hstep, ih (setProp target a v) hnd.2, getProp_cons]
      by_cases h : a = k
      · subst h
        rw [getProp_eq_none_of_not_mem_keys (by simpa [keys] using hnd.1)]
        simp [getProp_setProp, Option.or]
      · simp [getProp_setProp, fun hk : a = k => h hk, h, Option.or]

/-! Helper lemmas about the reconciliation fold -/

theorem foldl_reconcileStep_fst (storedServices : List Obj) (fetchedServices : List Obj)
    (acc : Bool × List Event × List Obj) :
    (fetchedServices.foldl (reconcileStep storedServices) acc).1
      = (acc.1 || fetchedServices.any fun f => (findById storedServices f).isNone) := by
  induction fetchedServices generalizing acc with
  | nil => simp
  | cons f rest ih =>
      rw [List.foldl_cons, ih]
      cases hfind : findById storedServices f with
      | some s =>
          by_cases hsim :
              isSimilarAt (getField f "state") (getField s "state") = true
          · simp [reconcileStep, hfind, hsim]
          · simp only [reconcileStep, hfind]
            rw [if_neg hsim]
            simp [hfind]
      | none => simp [reconcileStep, hfind]

theorem foldl_reconcileStep_filter (storedServices : List Obj) (fetchedServices : List Obj)
    (acc : Bool × List Event × List Obj) :
    ((fetchedServices.foldl (reconcileStep storedServices) acc).2.1).filter isServiceChangeEvt
      = acc.2.1.filter isServiceChangeEvt := by
  induction fetchedServices generalizing acc with
  | nil => rfl
  | cons f rest ih =>
      rw [List.foldl_cons, ih]
      cases hfind : findById storedServices f with
      | some s =>
          by_cases hsim :
              isSimilarAt (getField f "state") (getField s "state") = true
          · simp [reconcileStep, hfind, hsim]
          · simp only [reconcileStep, hfind]
            rw [if_neg hsim]
            simp [List.filter_append, isServiceChangeEvt]
      | none => simp [reconcileStep, hfind, List.filter_append, isServiceChangeEvt]

theorem refreshServicesByPolling_true (storedServices fetchedServices : List Obj) :
    refreshServicesByPolling true storedServices fetchedServices
      = (if (runReconcile storedServices fetchedServices).1
            || fetchedServices.length != storedServices.length
         then (runReconcile storedServices fetchedServices).2.1
              ++ [Event.serviceChange fetchedServices]
         else (runReconcile storedServices fetchedServices).2.1,
         (runReconcile storedServices fetchedServices).2.2, some fetchedServices) := rfl

/-! Concrete records used by the claims -/

/-- The cached record of the C1 example: id 1, state mapping key a to 1. -/
def cachedSvc1 : Obj := [("id", .numV 1), ("state", .objV [("a", .numV 1)])]

/-- The fetched record of the C1 example: id 1, state mapping key a to 2. -/
def fetchedSvc1 : Obj := [("id", .numV 1), ("state", .objV [("a", .numV 2)])]

/-- The merge of `fetchedSvc1` onto `cachedSvc1`. -/
def mergedSvc1 : Obj := [("id", .numV 1), ("state", .objV [("a", .numV 2)])]

/-- The fetched record of the C2 example: id 2, unknown to the cache. -/
def newSvc2 : Obj := [("id", .numV 2), ("type", .strV "light")]

/-! Claims -/

/-- C1: in a reconciliation cycle, for every fetched service whose id
matches a cached service: if the fetched state is subset-equal to the
cached state, no event is dispatched and the cache entry is not rewritten;
otherwise the fetched record is merged onto the cached record (fetched
properties overwrite matching cached properties, non-overlapping cached
properties survive), exactly one `service-state-change` event is
dispatched carrying the merged record, and the merged record is persisted.
In particular, with cache `cachedSvc1` and fetch `fetchedSvc1`, exactly
one `service-state-change` fires, carrying the merged record whose state
maps a to 2, with no `service-change`. -/
theorem C1_reconcile_matched :
    (∀ (storedServices : List Obj) (acc : Bool × List Event × List Obj) (f s : Obj),
        findById storedServices f = some s →
        isSimilarAt (getField f "state") (getField s "state") = true →
        reconcileStep storedServices acc f = acc)
    ∧ (∀ (storedServices : List Obj) (acc : Bool × List Event × List Obj) (f s : Obj),
        findById storedServices f = some s →
        isSimilarAt (getField f "state") (getField s "state") = false →
        reconcileStep storedServices acc f
          = (acc.1, acc.2.1 ++ [Event.serviceStateChange (objAssign s f)],
             acc.2.2 ++ [objAssign s f]))
    ∧ (∀ s f : Obj, (keys f).Nodup → ∀ k,
        getProp (objAssign s f) k = (getProp f k).or (getProp s k))
    ∧ refreshServicesByPolling true [cachedSvc1] [fetchedSvc1]
        = ([Event.serviceStateChange mergedSvc1], [mergedSvc1], some [fetchedSvc1])
    ∧ getField mergedSvc1 "state" = JsVal.objV [("a", JsVal.numV 2)] := by
  refine ⟨?_, ?_, ?_, rfl, rfl⟩
  · intro storedServices acc f s hfind hsim
    simp [reconcileStep, hfind, hsim]
  · intro storedServices acc f s hfind hsim
    simp only [reconcileStep, hfind]
    rw [if_neg (by simp [hsim])]
  · intro s f hnd k
    exact getProp_objAssign s f hnd k

/-- Witness for C1 at the concrete example of the claim. -/
theorem C1_witness :
    reconcileStep [cachedSvc1] (false, [], []) fetchedSvc1
      = (false, [Event.serviceStateChange mergedSvc1], [mergedSvc1]) :=
  C1_reconcile_matched.2.1 [cachedSvc1] (false, [], []) fetchedSvc1 cachedSvc1 rfl rfl

/-- C2: in a reconciliation cycle, every fetched service with no cached
service of equal id is treated as new: a `service-state-change` event is
dispatched carrying it, it is persisted to the cache, and the new flag is
set; after all fetched services are processed, a single `service-change`
event carrying the full fetched list is dispatched if and only if at least
one service was new or the fetched and cached lengths differ, and the
cycle resolves with the fetched list. In particular, with empty cache and
one fetched service `newSvc2`, both events fire exactly once each. -/
theorem C2_reconcile_new_and_membership :
    (∀ (storedServices : List Obj) (acc : Bool × List Event × List Obj) (f : Obj),
        findById storedServices f = none →
        reconcileStep storedServices acc f
          = (true, acc.2.1 ++ [Event.serviceStateChange f], acc.2.2 ++ [f]))
    ∧ (∀ storedServices fetchedServices : List Obj,
        (runReconcile storedServices fetchedServices).1
          = fetchedServices.any fun f => (findById storedServices f).isNone)
    ∧ (∀ storedServices fetchedServices : List Obj,
        ((refreshServicesByPolling true storedServices fetchedServices).1).filter
            isServiceChangeEvt
          = if (runReconcile storedServices fetchedServices).1
               || fetchedServices.length != storedServices.length
            then [Event.serviceChange fetchedServices] else [])
    ∧ (∀ storedServices fetchedServices : List Obj,
        (refreshServicesByPolling true storedServices fetchedServices).2.2
          = some fetchedServices)
    ∧ refreshServicesByPolling true [] [newSvc2]
        = ([Event.serviceStateChange newSvc2, Event.serviceChange [newSvc2]],
           [newSvc2], some [newSvc2]) := by
  refine ⟨?_, ?_, ?_, ?_, rfl⟩
  · intro storedServices acc f hfind
    simp [reconcileStep, hfind]
  · intro storedServices fetchedServices
    simp [runReconcile, foldl_reconcileStep_fst]
  · intro storedServices fetchedServices
    rw [refreshServicesByPolling_true]
    cases hc : (runReconcile storedServices fetchedServices).1
        || fetchedServices.length != storedServices.length with
    | true =>
        simp [runReconcile, List.filter_append, isServiceChangeEvt,
              foldl_reconcileStep_filter]
    | false =>
        simp [runReconcile, foldl_reconcileStep_filter]
  · intro storedServices fetchedServices
    rfl

/-- Witness for C2 at the concrete example of the claim. -/
theorem C2_witness :
    reconcileStep [] (false, [], []) newSvc2
      = (true, [Event.serviceStateChange newSvc2], [newSvc2]) :=
  C2_reconcile_new_and_membership.1 [] (false, [], []) newSvc2 rfl

/-- The subset side of the C3 asymmetry example. -/
def simA : Obj := [("a", .numV 1)]

/-- The superset side of the C3 asymmetry example. -/
def simB : Obj := [("a", .numV 1), ("b", .numV 2)]

/-- C3: for all state objects A and B, if every property of A exists in B
with a strictly equal value then `isSimilar A B` is true, regardless of
extra keys in B and of key ordering; and `isSimilar` is not symmetric in
general: for `simA` a strict key-subset of `simB`, `isSimilar simA simB`
is true while `isSimilar simB simA` is false. -/
theorem C3_isSimilar_subset_asymmetric :
    (∀ a b : Obj,
        (∀ kv ∈ a, ∃ v, getProp b kv.1 = some v ∧ jsStrictEq kv.2 v = true) →
        isSimilar a b = true)
    ∧ isSimilar simA simB = true
    ∧ isSimilar simB simA = false
    ∧ keys simA ⊆ keys simB
    ∧ ¬ keys simB ⊆ keys simA := by
  refine ⟨?_, rfl, rfl, ?_, ?_⟩
  · intro a b h
    simp only [isSimilar, List.all_eq_true]
    intro kv hkv
    obtain ⟨v, hv, he⟩ := h kv hkv
    simp [hv, he]
  · intro x hx
    simp only [simA, simB, keys, List.map_cons, List.map_nil] at hx ⊢
    simp at hx
    simp [hx]
  · intro hsub
    have hb := hsub (show "b" ∈ keys simB by simp [simB, keys])
    simp [simA, keys] at hb

/-- Witness for C3: the universal part applied at a concrete pair whose
key order differs and whose superset side has an extra key. -/
theorem C3_witness :
    isSimilar [("x", JsVal.numV 3)] [("y", JsVal.strV "q"), ("x", JsVal.numV 3)] = true :=
  C3_isSimilar_subset_asymmetric.1 _ _ (by
    intro kv hkv
    simp only [List.mem_singleton] at hkv
    subst hkv
    exact ⟨JsVal.numV 3, rfl, rfl⟩)

/-- The event sequence refuting C4: enable polling, let the timer fire (a
cycle is now outstanding), disable, re-enable, and let the newly armed
timer fire. -/
def C4trace : List SchedEvent :=
  [.toggle true, .timerFire 0, .toggle false, .toggle true, .timerFire 1]

/-- C4 (refuted, code bug): the claim asserts that at most one
reconciliation cycle is ever outstanding and that re-enabling while a
cycle is outstanding is a no-op. Disabling while a cycle is in flight
nulls `nextPollTimeout`, so the subsequent `togglePolling(true)` passes
the guard of `schedulePoll` and arms a fresh timer; when it fires, a
second cycle starts while the first is still outstanding. After `C4trace`
the model holds two outstanding cycles, and the re-enable (the fourth
event) visibly changed the state of a scheduler with a cycle in flight. -/
theorem C4_double_cycle_eval :
    (schedRun C4trace).inFlightCycles = [0, 1]
    ∧ (schedRun C4trace).inFlightCycles.length = 2
    ∧ schedRun (C4trace.take 4) ≠ schedRun (C4trace.take 3) := by
  refine ⟨rfl, rfl, by decide⟩

/-- C5: a failing polling cycle is swallowed (settlement is independent of
the outcome, and the settlement step is a total function, so no failure
reaches a caller); on settlement the cycle is no longer outstanding and a
new poll is armed if and only if polling is still enabled at settle time;
and disabling polling clears the stored handle and cancels the timer it
referenced. -/
theorem C5_settle_and_cancel (s : SchedState) (t : Nat) :
    (∀ ok1 ok2 : Bool,
        schedStep s (.cycleSettle t ok1) = schedStep s (.cycleSettle t ok2))
    ∧ (t ∈ s.inFlightCycles →
        (schedStep s (.cycleSettle t true)).inFlightCycles = s.inFlightCycles.erase t
        ∧ (s.isPollingEnabled = true →
            (schedStep s (.cycleSettle t true)).nextPollTimeout = some s.nextTimerId
            ∧ s.nextTimerId ∈ (schedStep s (.cycleSettle t true)).pendingTimers)
        ∧ (s.isPollingEnabled = false →
            (schedStep s (.cycleSettle t true)).nextPollTimeout = none
            ∧ (schedStep s (.cycleSettle t true)).pendingTimers = s.pendingTimers))
    ∧ ((togglePolling false s).isPollingEnabled = false
       ∧ (togglePolling false s).nextPollTimeout = none
       ∧ (togglePolling false s).inFlightCycles = s.inFlightCycles
       ∧ ∀ t0, s.nextPollTimeout = some t0 → s.pendingTimers.Nodup →
           t0 ∉ (togglePolling false s).pendingTimers) := by
  refine ⟨fun ok1 ok2 => rfl, ?_, ?_, ?_, ?_, ?_⟩
  · intro ht
    refine ⟨?_, ?_, ?_⟩
    · simp only [schedStep, if_pos ht, schedulePoll]
      split <;> rfl
    · intro he
      simp [schedStep, if_pos ht, schedulePoll, he]
    · intro he
      simp [schedStep, if_pos ht, schedulePoll, he]
  · cases h : s.nextPollTimeout <;> simp [togglePolling, clearPollTimeout, h]
  · cases h : s.nextPollTimeout <;> simp [togglePolling, clearPollTimeout, h]
  · cases h : s.nextPollTimeout <;> simp [togglePolling, clearPollTimeout, h]
  · intro t0 h hnd
    simp [togglePolling, clearPollTimeout, h]
    exact hnd.not_mem_erase

/-- Witness for C5: a settle with failure equals a settle with success, it
re-arms timer 1 because polling is still enabled, and disabling a state
whose timer 5 is armed cancels it. -/
theorem C5_witness :
    schedStep ⟨true, some 0, [], [0], 1⟩ (.cycleSettle 0 false)
      = schedStep ⟨true, some 0, [], [0], 1⟩ (.cycleSettle 0 true)
    ∧ (schedStep ⟨true, some 0, [], [0], 1⟩ (.cycleSettle 0 true)).nextPollTimeout = some 1
    ∧ (togglePolling false ⟨true, some 5, [5], [], 6⟩).nextPollTimeout = none
    ∧ (5 : Nat) ∉ (togglePolling false ⟨true, some 5, [5], [], 6⟩).pendingTimers := by
  refine ⟨(C5_settle_and_cancel ⟨true, some 0, [], [0], 1⟩ 0).1 false true, ?_, ?_, ?_⟩
  · exact (((C5_settle_and_cancel ⟨true, some 0, [], [0], 1⟩ 0).2.1
      (by decide)).2.1 rfl).1
  · exact (C5_settle_and_cancel ⟨true, some 5, [5], [], 6⟩ 0).2.2.2.1
  · exact (C5_settle_and_cancel ⟨true, some 5, [5], [], 6⟩ 0).2.2.2.2.2 5 rfl (by decide)

/-- C6 (refuted, code bug): the claim asserts that any URL whose query
string contains a `session_token` entry leads, when not logged in, to the
token value being stored, the parameter being stripped and a redirect.
The source compares `substring(0, 14)` of the query part, which is
`session_token=` for a part carrying a value, against the
thirteen-character literal `session_token`, so a part of the form
`session_token=XYZ` never matches and initialization just continues with
nothing stored. Only a bare `session_token` part (clamped to thirteen
characters) matches, and then the stored value is that literal prefix,
not a token value. -/
theorem C6_session_token_eval :
    initUserSession false "?session_token=XYZ" = (.continueInit, none)
    ∧ initUserSession false "?session_token" = (.redirect "", some "session_token")
    ∧ initUserSession false "?a=1&session_token&b=2"
        = (.redirect "a=1&b=2", some "session_token")
    ∧ initUserSession true "?session_token=XYZ" = (.continueInit, none) :=
  ⟨rfl, rfl, rfl, rfl⟩

/-- A discovered box used by the C7 evaluation. -/
def boxEx : Box := ⟨["192.168.1.8"], 3000, ⟨"foxbox.local"⟩⟩

/-- C7 (refuted for the in-range half, code bug): out of range (index
equal to the length included) the call marks the settings not configured
and reports the condition non-fatally without touching the destination,
exactly as claimed. In range the origin is derived and persisted and the
destination is pointed at the first address and the port, but the claimed
final step never happens: the `configured = true` assignment sits in
nested plain `function()` callbacks whose `this` is undefined in this
strict-mode module, so completing the destination configuration raises a
TypeError and the configured flag stays false. -/
theorem C7_selectBox_eval :
    selectBox [boxEx] 0 ⟨false, none, none⟩ ⟨none, none⟩
      = (⟨false, some "https://foxbox.local:3000", some ["192.168.1.8"]⟩,
         ⟨some "192.168.1.8", some 3000⟩, some .callbackTypeError)
    ∧ selectBox [boxEx] 1 ⟨false, none, none⟩ ⟨none, none⟩
      = (⟨false, none, none⟩, ⟨none, none⟩, some .indexOutOfRange) :=
  ⟨rfl, rfl⟩

/-- C8: `getOperationValueType` fails for an absent or empty kind, returns
the `typ` field of a structured kind verbatim, maps the well-known string
`TakeSnapshot` to `Unit` and every other string to itself. -/
theorem C8_getOperationValueType :
    getOperationValueType .undefK = .error "Operation kind is not defined!"
    ∧ getOperationValueType (.strK "") = .error "Operation kind is not defined!"
    ∧ (∀ typ, getOperationValueType (.extK typ) = .ok typ)
    ∧ getOperationValueType (.strK "TakeSnapshot") = .ok "Unit"
    ∧ (∀ s, s ≠ "" → s ≠ "TakeSnapshot" → getOperationValueType (.strK s) = .ok s)
    ∧ getOperationValueType (.strK "OnOff") = .ok "OnOff"
    ∧ getOperationValueType (.extK "Binary") = .ok "Binary" := by
  refine ⟨rfl, rfl, fun typ => rfl, rfl, ?_, rfl, rfl⟩
  intro s h1 h2
  simp [getOperationValueType, h1, h2]

/-- Witness for C8 at a well-known string kind that is not remapped. -/
theorem C8_witness : getOperationValueType (.strK "LightOn") = .ok "LightOn" :=
  C8_getOperationValueType.2.2.2.2.1 "LightOn" (by decide) (by decide)

/-- A second discovered box used by the C9 evaluation. -/
def boxEx2 : Box := ⟨["192.168.1.9"], 3001, ⟨"second.local"⟩⟩

/-- C9 (refuted, code bug): the claim asserts that an `added` discovery
event appends the box to the registry list and attempts `selectBox(0)`
exactly when no box is active. The registry is initialised to
`Object.freeze([])` and never replaced, so the `push` raises a TypeError:
nothing is appended and `selectBox` is never reached. The second conjunct
evaluates the push-succeeds branch on an unfrozen registry that already
holds a box, showing that the source calls `selectBox()` unconditionally
on every `added` event rather than only when no box is active. -/
theorem C9_onDiscovered_eval :
    onDiscovered initialBoxRegistry "added" boxEx2
      = (initialBoxRegistry, false,
         some "TypeError: can not add property 0, object is not extensible")
    ∧ onDiscovered ⟨[boxEx2], false⟩ "added" boxEx2
      = (⟨[boxEx2, boxEx2], false⟩, true, none)
    ∧ onDiscovered initialBoxRegistry "removed" boxEx2
      = (initialBoxRegistry, false, none) :=
  ⟨rfl, rfl, rfl⟩

/-- C10: every service produced by the fetch-services projection carries
exactly the keys id, type (copied from the adapter field of the raw
response record), getters, setters and properties, and in particular no
state key, so its state reads as `undefined` in the subset-equality
comparison of the reconciler. -/
theorem C10_fetchServices_projection :
    ∀ services : List Obj, ∀ svc ∈ fetchServices services,
      keys svc = ["id", "type", "getters", "setters", "properties"]
      ∧ hasProp svc "state" = false
      ∧ getField svc "state" = JsVal.undefV
      ∧ ∃ raw ∈ services, svc = projectService raw
          ∧ getField svc "type" = getField raw "adapter" := by
  intro services svc hsvc
  obtain ⟨raw, hraw, rfl⟩ := List.mem_map.mp hsvc
  exact ⟨rfl, rfl, rfl, raw, hraw, rfl, rfl⟩

/-- A raw response record used by the C10 witness; even a stray state
field in the response does not survive the projection. -/
def rawSvcEx : Obj :=
  [("id", .numV 9), ("adapter", .strV "thermostat"), ("state", .objV [("a", .numV 1)])]

/-- Witness for C10 at a concrete response record. -/
theorem C10_witness :
    keys (projectService rawSvcEx) = ["id", "type", "getters", "setters", "properties"]
    ∧ hasProp (projectService rawSvcEx) "state" = false
    ∧ getField (projectService rawSvcEx) "state" = JsVal.undefV := by
  have h := C10_fetchServices_projection [rawSvcEx] (projectService rawSvcEx)
      (by simp [fetchServices])
  exact ⟨h.1, h.2.1, h.2.2.1⟩

end Foxbox
